import Mathlib

/-!
Verification of the runtime-session control plane of this repository against
its natural-language specification.

Each namespace below is a shallow embedding of one source module:

* `PathMapper`    — `app/lib/.server/runtime/path-mapper.ts`
* `Rollout`       — the rollout selector module (`selectRuntimeRolloutCohort`)

Strings are modelled by Lean `String`/`List Char`; JavaScript string indices
are UTF-16 code units, which coincide with Lean characters for the
basic-multilingual-plane inputs used throughout.
-/

namespace PathMapper

/-- Modelled from the spec: the fixed virtual workdir constant `WORK_DIR` is
imported from `~/utils/constants`, a file that is not part of these sources;
the spec's scenarios (§8) fix it to `"/home/project"`. -/
def WORK_DIR : List Char := "/home/project".data

/-- `normalize` of `path-mapper.ts`: `value.replaceAll('\\', '/')`. -/
def normalizeChars (l : List Char) : List Char :=
  l.map fun c => if c = '\\' then '/' else c

/-- `stripLeadingSlash` of `path-mapper.ts`: `value.replace(/^\/+/, '')`. -/
def stripLeadingSlashChars (l : List Char) : List Char :=
  l.dropWhile (· = '/')

/-- JavaScript `String.prototype.split('/')` on a character list: the list of
(possibly empty) chunks between `'/'` separators. -/
def splitSeg : List Char → List (List Char)
  | [] => [[]]
  | c :: cs =>
    if c = '/' then [] :: splitSeg cs
    else
      match splitSeg cs with
      | [] => [[c]]
      | s :: ss => (c :: s) :: ss

/-- `split('/').filter(Boolean)` — the non-empty path segments. -/
def nonEmptySegments (l : List Char) : List (List Char) :=
  (splitSeg l).filter fun s => !s.isEmpty

/-- The failing condition of `ensureNoTraversal`: some non-empty segment of the
normalized value equals `".."`. -/
def hasTraversal (l : List Char) : Bool :=
  (nonEmptySegments (normalizeChars l)).any fun s => s == ['.', '.']

/-- `toRuntimePath` of `path-mapper.ts` (the spec's `toPlatformPath`).
Throwing `new Error('Invalid runtime path')` is modelled by
`Except.error "Invalid runtime path"`. -/
def toRuntimePath (virtualPath : String) : Except String String :=
  let normalized := normalizeChars virtualPath.data
  if normalized = WORK_DIR ∨ normalized = WORK_DIR ++ ['/'] then
    .ok ""
  else if (WORK_DIR ++ ['/']).isPrefixOf normalized then
    let candidate := normalized.drop (WORK_DIR.length + 1)
    if hasTraversal candidate then .error "Invalid runtime path"
    else .ok ⟨stripLeadingSlashChars candidate⟩
  else
    let candidate := stripLeadingSlashChars normalized
    if hasTraversal candidate then .error "Invalid runtime path"
    else .ok ⟨candidate⟩

/-- The fixed list of redeploy-trigger file names of `isRedeployTriggerPath`. -/
def redeployTriggerFiles : List String :=
  ["package.json", "package-lock.json", "pnpm-lock.yaml", "yarn.lock", "bun.lockb",
    "docker-compose.yml"]

/-- `runtimePath.toLowerCase()`, restricted to the ASCII range (`Char.toLower`);
all members of `redeployTriggerFiles` are ASCII. -/
def lowerStr (s : String) : String := ⟨s.data.map Char.toLower⟩

/-- `isRedeployTriggerPath` of `path-mapper.ts`; a traversal failure inside
`toRuntimePath` propagates. -/
def isRedeployTriggerPath (virtualPath : String) : Except String Bool :=
  (toRuntimePath virtualPath).map fun runtimePath =>
    redeployTriggerFiles.contains (lowerStr runtimePath)

theorem backslash_not_mem_normalizeChars (l : List Char) : '\\' ∉ normalizeChars l := by
  intro h
  rcases List.mem_map.1 h with ⟨c, _, hc⟩
  by_cases hb : c = '\\' <;> simp [hb] at hc

theorem normalizeChars_of_not_mem {l : List Char} (h : '\\' ∉ l) :
    normalizeChars l = l := by
  induction l with
  | nil => rfl
  | cons c cs ih =>
    simp only [List.mem_cons, not_or] at h
    rw [normalizeChars, List.map_cons, if_neg (fun hh => h.1 hh.symm)]
    exact congrArg (c :: ·) (ih h.2)

theorem not_mem_drop {l : List Char} {c : Char} (h : c ∉ l) (n : Nat) :
    c ∉ l.drop n :=
  fun hm => h ((List.drop_sublist n l).mem hm)

theorem not_mem_dropWhile {l : List Char} {c : Char} (h : c ∉ l) (p : Char → Bool) :
    c ∉ l.dropWhile p :=
  fun hm => h ((List.dropWhile_sublist p).mem hm)

theorem splitSeg_slash (cs : List Char) : splitSeg ('/' :: cs) = [] :: splitSeg cs := by
  simp [splitSeg]

theorem nonEmptySegments_stripLeadingSlash (l : List Char) :
    nonEmptySegments (stripLeadingSlashChars l) = nonEmptySegments l := by
  induction l with
  | nil => rfl
  | cons c cs ih =>
    by_cases hc : c = '/'
    · subst hc
      have h1 : stripLeadingSlashChars ('/' :: cs) = stripLeadingSlashChars cs := by
        simp [stripLeadingSlashChars, List.dropWhile]
      rw [h1, ih]
      simp [nonEmptySegments, splitSeg_slash]
    · simp [stripLeadingSlashChars, List.dropWhile, hc]

theorem head_stripLeadingSlash (l : List Char) :
    (stripLeadingSlashChars l).head? ≠ some '/' := by
  induction l with
  | nil => simp [stripLeadingSlashChars]
  | cons c cs ih =>
    by_cases hc : c = '/'
    · subst hc
      simpa [stripLeadingSlashChars, List.dropWhile] using ih
    · simp [stripLeadingSlashChars, List.dropWhile, hc]

theorem no_dotdot_of_hasTraversal_false {l : List Char} (hnb : '\\' ∉ l)
    (h : hasTraversal l = false) :
    ∀ seg ∈ nonEmptySegments l, seg ≠ ['.', '.'] := by
  intro seg hm heq
  rw [hasTraversal, normalizeChars_of_not_mem hnb, List.any_eq_false] at h
  have := h seg hm
  simp [heq] at this

/-- Claim C2 — Path safety: for every input string `S`, `toRuntimePath S`
either fails with "Invalid runtime path" or returns a path with no `..`
segment, no backslash and no leading slash; moreover
`toRuntimePath "/home/project/../secret"` fails,
`toRuntimePath "/home/project/src/main.ts" = "src/main.ts"` and
`toRuntimePath "/home/project/" = ""`. -/
theorem toRuntimePath_path_safety :
    (∀ S : String, toRuntimePath S = .error "Invalid runtime path" ∨
      ∃ r : String, toRuntimePath S = .ok r ∧
        (∀ seg ∈ nonEmptySegments r.data, seg ≠ ['.', '.']) ∧
        '\\' ∉ r.data ∧
        r.data.head? ≠ some '/') ∧
    toRuntimePath "/home/project/../secret" = .error "Invalid runtime path" ∧
    toRuntimePath "/home/project/src/main.ts" = .ok "src/main.ts" ∧
    toRuntimePath "/home/project/" = .ok "" := by
  refine ⟨?_, rfl, rfl, rfl⟩
  intro S
  rw [toRuntimePath]
  set normalized := normalizeChars S.data with hn
  have hnb : '\\' ∉ normalized := backslash_not_mem_normalizeChars S.data
  by_cases h1 : normalized = WORK_DIR ∨ normalized = WORK_DIR ++ ['/']
  · right
    refine ⟨"", by simp [h1], by simp [nonEmptySegments, splitSeg], by simp, by simp⟩
  · simp only [h1, if_false]
    by_cases h2 : (WORK_DIR ++ ['/']).isPrefixOf normalized
    · simp only [h2, if_true]
      set candidate := normalized.drop (WORK_DIR.length + 1) with hc
      have hcb : '\\' ∉ candidate := not_mem_drop hnb _
      by_cases h3 : hasTraversal candidate
      · left; simp [h3]
      · right
        refine ⟨⟨stripLeadingSlashChars candidate⟩, by simp [h3], ?_, ?_, ?_⟩
        · intro seg hm
          rw [show (String.mk (stripLeadingSlashChars candidate)).data
              = stripLeadingSlashChars candidate from rfl,
            nonEmptySegments_stripLeadingSlash] at hm
          exact no_dotdot_of_hasTraversal_false hcb (by simpa using h3) seg hm
        · exact not_mem_dropWhile hcb _
        · exact head_stripLeadingSlash candidate
    · simp only [h2, if_false]
      set candidate := stripLeadingSlashChars normalized with hc
      have hcb : '\\' ∉ candidate := not_mem_dropWhile hnb _
      by_cases h3 : hasTraversal candidate
      · left; simp [h3]
      · right
        refine ⟨⟨candidate⟩, by simp [h3], ?_, hcb, ?_⟩
        · intro seg hm
          exact no_dotdot_of_hasTraversal_false hcb (by simpa using h3) seg hm
        · exact head_stripLeadingSlash normalized

theorem slash_mem_lowerStr {r : String} (h : '/' ∈ r.data) : '/' ∈ (lowerStr r).data := by
  exact List.mem_map.2 ⟨'/', h, by decide⟩

theorem not_trigger_of_slash_mem {r : String} (h : '/' ∈ r.data) :
    redeployTriggerFiles.contains (lowerStr r) = false := by
  have hm : lowerStr r ∉ redeployTriggerFiles := by
    intro hmem
    have h7 := slash_mem_lowerStr h
    simp only [redeployTriggerFiles, List.mem_cons, List.not_mem_nil, or_false] at hmem
    rcases hmem with h1 | h1 | h1 | h1 | h1 | h1 <;> (rw [h1] at h7; revert h7; decide)
  simpa using hm

/-- Claim C8 — Redeploy-trigger detection: whenever `toRuntimePath v` succeeds
with platform path `r`, `isRedeployTriggerPath v` succeeds and is `true` iff
the lowercased `r` is one of the six whitelisted root file names; any `r`
containing a `/` (a nested subpath) yields `false`; concretely
`"/home/project/package.json"` is a trigger, `"/home/project/src/package.json"`
is not, and matching is case-insensitive (`"/home/project/PNPM-lock.yaml"`). -/
theorem isRedeployTriggerPath_spec :
    (∀ (v r : String), toRuntimePath v = .ok r →
      isRedeployTriggerPath v = .ok (redeployTriggerFiles.contains (lowerStr r)) ∧
      ('/' ∈ r.data → isRedeployTriggerPath v = .ok false)) ∧
    isRedeployTriggerPath "/home/project/package.json" = .ok true ∧
    isRedeployTriggerPath "/home/project/src/package.json" = .ok false ∧
    isRedeployTriggerPath "/home/project/PNPM-lock.yaml" = .ok true := by
  refine ⟨?_, rfl, rfl, rfl⟩
  intro v r h
  constructor
  · rw [isRedeployTriggerPath, h, Except.map]
  · intro hs
    rw [isRedeployTriggerPath, h, Except.map, not_trigger_of_slash_mem hs]

/-- Witness for `isRedeployTriggerPath_spec` at the concrete input
`"/home/project/src/main.ts"` (platform path `"src/main.ts"`, nested). -/
theorem isRedeployTriggerPath_spec_witness :
    isRedeployTriggerPath "/home/project/src/main.ts" = .ok false :=
  (isRedeployTriggerPath_spec.1 "/home/project/src/main.ts" "src/main.ts" rfl).2
    (by decide)

end PathMapper

namespace Rollout

/-!
Shallow embedding of the rollout selector module
(`resolveRolloutBucket` / `selectRuntimeRolloutCohort`).

JavaScript 32-bit integer arithmetic: every bitwise operation coerces to
32 bits and the additions are exact in double precision, so the whole hash
is computed modulo `2 ^ 32`; the embedding carries that modulus explicitly.
`charCodeAt` yields UTF-16 code units, modelled by `Char.toNat` (they agree
on basic-multilingual-plane strings, and all claims use ASCII inputs).
-/

inductive RuntimeRolloutCohort where
  | stable
  | canary
deriving DecidableEq, Repr

structure RuntimeRolloutSelection where
  bucket : Nat
  percent : Int
  rolloutCohort : RuntimeRolloutCohort
deriving DecidableEq, Repr

/-- `normalizePercent` of the rollout module, on integer inputs (the
`Number.isFinite` guard and `Math.trunc` are the identity there). -/
def normalizePercent (value : Int) : Int :=
  if value ≤ 0 then 0
  else if value ≥ 100 then 100
  else value

/-- One loop iteration of `stableHash32`:
`hash ^= code; hash += (hash<<1)+(hash<<4)+(hash<<7)+(hash<<8)+(hash<<24)`,
all modulo `2 ^ 32`. -/
def hashStep (h code : Nat) : Nat :=
  let x := (h ^^^ code) % 2 ^ 32
  (x + x <<< 1 + x <<< 4 + x <<< 7 + x <<< 8 + x <<< 24) % 2 ^ 32

/-- `stableHash32` with init `2166136261`, followed by the final `>>> 0`. -/
def stableHash32 (codes : List Nat) : Nat :=
  codes.foldl hashStep 2166136261 % 2 ^ 32

/-- The UTF-16 code units of a string (`charCodeAt` sequence). -/
def strCodes (s : String) : List Nat := s.data.map Char.toNat

/-- `resolveRolloutBucket`: hash of `actorId + ":" + chatId` modulo 100. -/
def resolveRolloutBucket (actorId chatId : String) : Nat :=
  stableHash32 (strCodes (actorId ++ ":" ++ chatId)) % 100

/-- `selectRuntimeRolloutCohort` of the rollout module. -/
def selectRuntimeRolloutCohort (actorId chatId : String) (canaryPercent : Int) :
    RuntimeRolloutSelection :=
  let percent := normalizePercent canaryPercent
  let bucket := resolveRolloutBucket actorId chatId
  { bucket := bucket
    percent := percent
    rolloutCohort :=
      if percent > 0 ∧ (bucket : Int) < percent then .canary else .stable }

theorem resolveRolloutBucket_lt (actorId chatId : String) :
    resolveRolloutBucket actorId chatId < 100 :=
  Nat.mod_lt _ (by norm_num)

/-- Claim C4 — Rollout determinism: `selectRuntimeRolloutCohort` is a pure
function (repeated calls agree); the cohort is `canary` iff the normalized
percent is positive and the bucket (FNV-like hash of `actorId ++ ":" ++
chatId` mod 100, init 2166136261) lies below it; percent 0 always yields
`stable` and percent 100 always yields `canary`. -/
theorem selectRuntimeRolloutCohort_spec :
    (∀ (a c : String) (p : Int),
      selectRuntimeRolloutCohort a c p = selectRuntimeRolloutCohort a c p) ∧
    (∀ (a c : String) (p : Int),
      (selectRuntimeRolloutCohort a c p).rolloutCohort = .canary ↔
        (normalizePercent p > 0 ∧
          ((resolveRolloutBucket a c : Int) < normalizePercent p))) ∧
    (∀ a c : String, (selectRuntimeRolloutCohort a c 0).rolloutCohort = .stable) ∧
    (∀ a c : String, (selectRuntimeRolloutCohort a c 100).rolloutCohort = .canary) := by
  refine ⟨fun _ _ _ => rfl, ?_, ?_, ?_⟩
  · intro a c p
    rw [selectRuntimeRolloutCohort]
    by_cases h : normalizePercent p > 0 ∧ ((resolveRolloutBucket a c : Int) < normalizePercent p)
    · simp [h]
    · simp only [h, if_false]
      constructor
      · intro hc
        exact absurd hc (by decide)
      · intro hc
        exact hc.elim
  · intro a c
    simp [selectRuntimeRolloutCohort, normalizePercent]
  · intro a c
    have hb : ((resolveRolloutBucket a c : Int)) < 100 := by
      exact_mod_cast resolveRolloutBucket_lt a c
    simp [selectRuntimeRolloutCohort, normalizePercent, hb]

end Rollout

namespace DokployClient

/-!
Shallow embedding of the retry machinery of
`app/lib/.server/runtime/dokploy-client.ts` (`DokployClient.#request`,
`#isRetryable`, `#normalizeError`, `getRetryDelayMs`).

The per-attempt network interaction (fetch, payload parse, envelope
extraction) is abstracted into one outcome per attempt index: either a value
or an already-normalized `DokployClientError` HTTP status.  `Math.random()`'s
jitter (`Math.floor(Math.random() * 120)`, an integer in `[0, 120)`) is an
explicit `jitters` argument.
-/

/-- `TRANSIENT_HTTP_STATUSES` of `dokploy-client.ts`. -/
def TRANSIENT_HTTP_STATUSES : List Nat := [408, 425, 429, 500, 502, 503, 504]

/-- `getRetryDelayMs`: `min(2000, 200 * 2 ** attempt + jitter)`. -/
def getRetryDelayMs (attempt jitter : Nat) : Nat :=
  min 2000 (200 * 2 ^ attempt + jitter)

/-- The error thrown by one attempt, before `#normalizeError`. -/
inductive JsError where
  | dokployError (status : Nat)
  | abortError
  | networkError
  | other
deriving DecidableEq, Repr

/-- The HTTP status assigned by `#normalizeError`: existing client errors keep
their status, aborts (timeouts) map to 504, `TypeError`s (network) to 502,
anything else to 502 `INTERNAL_SERVER_ERROR`. -/
def normalizeErrorStatus : JsError → Nat
  | .dokployError status => status
  | .abortError => 504
  | .networkError => 502
  | .other => 502

/-- Result of one attempt of the `while` loop body, after normalization. -/
inductive FetchOutcome (T : Type) where
  | ok (value : T)
  | fail (status : Nat)
deriving DecidableEq

/-- The `while (attempt < maxAttempts)` loop of `#request`, recursing on the
number of attempts still allowed (`remaining = maxAttempts - attempt`).  The
result pairs the final outcome (`Except.error none` models the unreachable
`RETRY_EXHAUSTED` fall-through) with the list of back-off delays slept, in
order. -/
def requestLoop {T : Type} (outcomes : Nat → FetchOutcome T) (jitters : Nat → Nat) :
    Nat → Nat → Except (Option Nat) T × List Nat
  | _, 0 => (.error none, [])
  | attempt, remaining + 1 =>
    match outcomes attempt with
    | .ok v => (.ok v, [])
    | .fail status =>
      if status ∈ TRANSIENT_HTTP_STATUSES ∧ 0 < remaining then
        let rest := requestLoop outcomes jitters (attempt + 1) remaining
        (rest.1, getRetryDelayMs attempt (jitters attempt) :: rest.2)
      else
        (.error (some status), [])

/-- `#request` with `maxAttempts = maxRetries + 1` attempts, starting at
attempt 0.  `maxRetries` defaults to 2 in the constructor
(`Math.max(0, options.maxRetries ?? 2)`). -/
def dokployRequest {T : Type} (maxRetries : Nat) (outcomes : Nat → FetchOutcome T)
    (jitters : Nat → Nat) : Except (Option Nat) T × List Nat :=
  requestLoop outcomes jitters 0 (maxRetries + 1)

theorem requestLoop_succ {T : Type} (outcomes : Nat → FetchOutcome T)
    (jitters : Nat → Nat) (attempt rem : Nat) :
    requestLoop outcomes jitters attempt (rem + 1) =
      match outcomes attempt with
      | .ok v => (.ok v, [])
      | .fail status =>
        if status ∈ TRANSIENT_HTTP_STATUSES ∧ 0 < rem then
          ((requestLoop outcomes jitters (attempt + 1) rem).1,
            getRetryDelayMs attempt (jitters attempt) ::
              (requestLoop outcomes jitters (attempt + 1) rem).2)
        else
          (.error (some status), []) := by
  rw [requestLoop]

theorem requestLoop_spec {T : Type} (outcomes : Nat → FetchOutcome T)
    (jitters : Nat → Nat) :
    ∀ (remaining attempt : Nat), 0 < remaining →
      (requestLoop outcomes jitters attempt remaining).2.length < remaining ∧
      (∀ i (hi : i < (requestLoop outcomes jitters attempt remaining).2.length),
        (∃ s, outcomes (attempt + i) = .fail s ∧ s ∈ TRANSIENT_HTTP_STATUSES) ∧
        (requestLoop outcomes jitters attempt remaining).2.get ⟨i, hi⟩ =
          getRetryDelayMs (attempt + i) (jitters (attempt + i))) ∧
      (∀ v : T, outcomes (attempt + (requestLoop outcomes jitters attempt remaining).2.length) = .ok v →
        (requestLoop outcomes jitters attempt remaining).1 = .ok v) ∧
      (∀ s : Nat, outcomes (attempt + (requestLoop outcomes jitters attempt remaining).2.length) = .fail s →
        (requestLoop outcomes jitters attempt remaining).1 = .error (some s) ∧
        (s ∉ TRANSIENT_HTTP_STATUSES ∨
          (requestLoop outcomes jitters attempt remaining).2.length + 1 = remaining)) := by
  intro remaining
  induction remaining with
  | zero => intro attempt h; exact absurd h (by omega)
  | succ rem ih =>
    intro attempt _
    cases hout : outcomes attempt with
    | ok v =>
      have heq : requestLoop outcomes jitters attempt (rem + 1) = (.ok v, []) := by
        rw [requestLoop_succ, hout]
      rw [heq]
      refine ⟨by simp, by simp, ?_, ?_⟩
      · intro v' hv'
        simp only [List.length_nil, Nat.add_zero, hout] at hv'
        cases hv'
        rfl
      · intro s' hs'
        simp only [List.length_nil, Nat.add_zero, hout] at hs'
        cases hs'
    | fail status =>
      by_cases hr : status ∈ TRANSIENT_HTTP_STATUSES ∧ 0 < rem
      · have heq : requestLoop outcomes jitters attempt (rem + 1) =
            ((requestLoop outcomes jitters (attempt + 1) rem).1,
              getRetryDelayMs attempt (jitters attempt) ::
                (requestLoop outcomes jitters (attempt + 1) rem).2) := by
          rw [requestLoop_succ, hout]
          exact if_pos hr
        rw [heq]
        obtain ⟨ih1, ih2, ih3, ih4⟩ := ih (attempt + 1) hr.2
        have harg : ∀ n : Nat, attempt + (n + 1) = attempt + 1 + n := by omega
        refine ⟨by simpa using ih1, ?_, ?_, ?_⟩
        · intro i hi
          cases i with
          | zero => exact ⟨⟨status, by simpa using hout, hr.1⟩, by simp⟩
          | succ j =>
            simp only [List.length_cons] at hi
            have hj : j < (requestLoop outcomes jitters (attempt + 1) rem).2.length :=
              Nat.lt_of_succ_lt_succ hi
            obtain ⟨he, hd⟩ := ih2 j hj
            refine ⟨?_, ?_⟩
            · rw [harg j]; exact he
            · simpa [harg j] using hd
        · intro v hv
          rw [show attempt + ((getRetryDelayMs attempt (jitters attempt) ::
              (requestLoop outcomes jitters (attempt + 1) rem).2).length)
              = attempt + 1 + (requestLoop outcomes jitters (attempt + 1) rem).2.length
            from by simp; omega] at hv
          exact ih3 v hv
        · intro s hs
          rw [show attempt + ((getRetryDelayMs attempt (jitters attempt) ::
              (requestLoop outcomes jitters (attempt + 1) rem).2).length)
              = attempt + 1 + (requestLoop outcomes jitters (attempt + 1) rem).2.length
            from by simp; omega] at hs
          exact ⟨(ih4 s hs).1,
            (ih4 s hs).2.elim Or.inl (fun he => Or.inr (by simp; omega))⟩
      · have heq : requestLoop outcomes jitters attempt (rem + 1) =
            (.error (some status), []) := by
          rw [requestLoop_succ, hout]
          exact if_neg hr
        rw [heq]
        refine ⟨by simp, by simp, ?_, ?_⟩
        · intro v hv
          simp only [List.length_nil, Nat.add_zero, hout] at hv
          cases hv
        · intro s hs
          simp only [List.length_nil, Nat.add_zero, hout] at hs
          cases hs
          refine ⟨rfl, ?_⟩
          by_cases hmem : status ∈ TRANSIENT_HTTP_STATUSES
          · right
            have : ¬ 0 < rem := fun hp => hr ⟨hmem, hp⟩
            simp
            omega
          · exact Or.inl hmem

/-- Claim C7 — Retry policy of the platform client: a failed attempt is
retried iff its normalized status is transient (408/425/429/500/502/503/504 —
including timeouts normalized to 504 and network errors to 502) and fewer
than `maxRetries` re-attempts were already made (default 2, so at most 3
attempts); the delay before re-attempt `attempt + 1` is
`min(2000, 200 * 2 ^ attempt + jitter)` with the jitter of that attempt. -/
theorem dokployRequest_retry_policy {T : Type} (maxRetries : Nat)
    (outcomes : Nat → FetchOutcome T) (jitters : Nat → Nat) :
    ((dokployRequest maxRetries outcomes jitters).2.length ≤ maxRetries) ∧
    (∀ i (hi : i < (dokployRequest maxRetries outcomes jitters).2.length),
      (∃ s, outcomes i = .fail s ∧ s ∈ TRANSIENT_HTTP_STATUSES) ∧
      (dokployRequest maxRetries outcomes jitters).2.get ⟨i, hi⟩ =
        getRetryDelayMs i (jitters i)) ∧
    (∀ v : T, outcomes (dokployRequest maxRetries outcomes jitters).2.length = .ok v →
      (dokployRequest maxRetries outcomes jitters).1 = .ok v) ∧
    (∀ s : Nat, outcomes (dokployRequest maxRetries outcomes jitters).2.length = .fail s →
      (dokployRequest maxRetries outcomes jitters).1 = .error (some s) ∧
      (s ∉ TRANSIENT_HTTP_STATUSES ∨
        (dokployRequest maxRetries outcomes jitters).2.length = maxRetries)) ∧
    normalizeErrorStatus .abortError = 504 ∧ (504 : Nat) ∈ TRANSIENT_HTTP_STATUSES ∧
    normalizeErrorStatus .networkError = 502 ∧ (502 : Nat) ∈ TRANSIENT_HTTP_STATUSES := by
  have hdef : dokployRequest maxRetries outcomes jitters
      = requestLoop outcomes jitters 0 (maxRetries + 1) := rfl
  obtain ⟨h1, h2, h3, h4⟩ := requestLoop_spec outcomes jitters (maxRetries + 1) 0 (by omega)
  rw [hdef]
  refine ⟨Nat.lt_succ_iff.1 h1, ?_, ?_, ?_, rfl, by decide, rfl, by decide⟩
  · intro i hi
    obtain ⟨he, hd⟩ := h2 i hi
    exact ⟨by simpa using he, by simpa using hd⟩
  · intro v hv
    exact h3 v (by simpa using hv)
  · intro s hs
    obtain ⟨hres, hcase⟩ := h4 s (by simpa using hs)
    exact ⟨hres, hcase.elim Or.inl (fun he => Or.inr (by omega))⟩

/-- A concrete request run: the first attempt fails with 503 (transient), the
second succeeds. -/
def c7Outcomes : Nat → FetchOutcome Nat :=
  fun n => if n = 0 then .fail 503 else .ok 42

def c7Jitters : Nat → Nat := fun _ => 50

theorem c7_delays_length : 0 < (dokployRequest 2 c7Outcomes c7Jitters).2.length := by
  decide

/-- Witness for `dokployRequest_retry_policy`: with default `maxRetries = 2`, a
503 on the first attempt and success on the second, the call returns the
success and slept `min 2000 (200 * 2 ^ 0 + 50)` before the one re-attempt. -/
theorem dokployRequest_retry_policy_witness :
    (dokployRequest 2 c7Outcomes c7Jitters).1 = .ok 42 ∧
    (dokployRequest 2 c7Outcomes c7Jitters).2.get ⟨0, c7_delays_length⟩ =
      getRetryDelayMs 0 50 :=
  ⟨(dokployRequest_retry_policy 2 c7Outcomes c7Jitters).2.2.1 42 (by decide),
    ((dokployRequest_retry_policy 2 c7Outcomes c7Jitters).2.1 0 c7_delays_length).2⟩

end DokployClient

namespace Orchestrator

/-!
Shallow embedding of the heartbeat path of
`app/lib/.server/runtime/session-orchestrator.ts`
(`heartbeatRuntimeSession`, `buildRuntimeToken`, `getExpiresAt`,
`normalizeMetadata`'s cohort resolution via `resolveMetadataRolloutCohort`).

ISO-8601 timestamps (`new Date().toISOString()`, `Date.parse`) are modelled
as epoch milliseconds: formatting and parsing are mutually inverse on valid
instants, so the string indirection is elided.  The platform I/O around the
pure core (token verification, `compose.one`, `compose.update`, the
best-effort sweeper call) is elided: the compose's current parsed-or-
synthesized metadata and the heartbeat instant are the inputs, the rewritten
metadata, the returned `expiresAt` and the fresh token `exp` are the
outputs.  `formatRuntimeMetadata`/`parseRuntimeMetadata` round-trip through
JSON, so consecutive heartbeats read back the metadata the previous one
wrote.
-/

/-- The subset of `RuntimeMetadata` (`types.ts`) the heartbeat path reads and
writes, with ISO timestamps as epoch milliseconds. -/
structure RuntimeMetadata where
  actorId : String
  chatId : String
  createdAtMs : Nat
  lastSeenAtMs : Nat
  idleTtlSec : Nat
  rolloutCohort : Option Rollout.RuntimeRolloutCohort
deriving DecidableEq, Repr

/-- The compose fields the heartbeat path reads. -/
structure DokployCompose where
  composeId : String
  serverId : Option String
deriving DecidableEq, Repr

/-- The configuration fields the heartbeat path reads. -/
structure RuntimeServerConfig where
  sessionIdleMinutes : Nat
  dokployCanaryServerId : Option String
deriving DecidableEq, Repr

/-- `resolveComposeServerId`: the compose's `serverId` when it is a non-blank
string, trimmed. -/
def resolveComposeServerId (compose : DokployCompose) : Option String :=
  match compose.serverId with
  | some raw => if raw.trim = "" then none else some raw.trim
  | none => none

/-- `resolveMetadataRolloutCohort`: the metadata cohort if present, else
`canary` when the compose is pinned to the configured canary server, else the
fallback (or `stable`). -/
def resolveMetadataRolloutCohort (compose : DokployCompose)
    (metadata : Option RuntimeMetadata) (config : RuntimeServerConfig)
    (fallbackRolloutCohort : Option Rollout.RuntimeRolloutCohort) :
    Rollout.RuntimeRolloutCohort :=
  match metadata >>= (·.rolloutCohort) with
  | some cohort => cohort
  | none =>
    match resolveComposeServerId compose, config.dokployCanaryServerId with
    | some composeServerId, some canaryServerId =>
      if composeServerId = canaryServerId then .canary
      else fallbackRolloutCohort.getD .stable
    | _, _ => fallbackRolloutCohort.getD .stable

/-- `getExpiresAt`: `Date.parse(metadata.lastSeenAt) + metadata.idleTtlSec *
1000`, in epoch milliseconds. -/
def getExpiresAt (metadata : RuntimeMetadata) : Nat :=
  metadata.lastSeenAtMs + metadata.idleTtlSec * 1000

/-- The `exp` claim produced by `buildRuntimeToken` → `signRuntimeToken` at
instant `nowMs`: `iat = Math.floor(Date.now() / 1000)` and
`exp = iat + config.sessionIdleMinutes * 60`. -/
def buildRuntimeTokenExp (config : RuntimeServerConfig) (nowMs : Nat) : Nat :=
  nowMs / 1000 + config.sessionIdleMinutes * 60

/-- What one heartbeat returns (the pure part of the orchestrator's
`{status, expiresAt, runtimeToken}` result). -/
structure HeartbeatResult where
  nextMetadata : RuntimeMetadata
  expiresAtMs : Nat
  tokenExp : Nat
deriving DecidableEq, Repr

/-- The pure core of `heartbeatRuntimeSession`: rewrite the compose metadata
with `lastSeenAt = now` and the configured idle TTL, return the new
`expiresAt` horizon and a fresh token. -/
def heartbeatRuntimeSession (config : RuntimeServerConfig)
    (compose : DokployCompose) (composeMetadata : RuntimeMetadata)
    (nowMs : Nat) : HeartbeatResult :=
  let nextMetadata : RuntimeMetadata :=
    { composeMetadata with
      lastSeenAtMs := nowMs
      idleTtlSec := config.sessionIdleMinutes * 60
      rolloutCohort :=
        some (resolveMetadataRolloutCohort compose (some composeMetadata) config none) }
  { nextMetadata := nextMetadata
    expiresAtMs := getExpiresAt nextMetadata
    tokenExp := buildRuntimeTokenExp config nowMs }

/-- A sequence of heartbeats at the given instants; each one reads back the
metadata the previous one wrote to the compose description. -/
def heartbeatSeq (config : RuntimeServerConfig) (compose : DokployCompose) :
    RuntimeMetadata → List Nat → List HeartbeatResult
  | _, [] => []
  | metadata, t :: ts =>
    let r := heartbeatRuntimeSession config compose metadata t
    r :: heartbeatSeq config compose r.nextMetadata ts

theorem heartbeatSeq_length (config : RuntimeServerConfig) (compose : DokployCompose)
    (metadata : RuntimeMetadata) (ts : List Nat) :
    (heartbeatSeq config compose metadata ts).length = ts.length := by
  induction ts generalizing metadata with
  | nil => rfl
  | cons t ts ih => simp [heartbeatSeq, ih]

/-- Counterexample to claim C1 as stated: the claim puts the token `exp` at
`ti + idleTtlSec·60` with `idleTtlSec = sessionIdleMinutes·60`.  With the
default `sessionIdleMinutes = 15` and a heartbeat at `t1 = 1 000 000 ms`
(`= 1000 s`), the code issues `exp = 1000 + 900 = 1900`, not
`1000 + 900·60 = 55000`. -/
theorem heartbeat_exp_counterexample :
    (heartbeatRuntimeSession ⟨15, none⟩ ⟨"c1", none⟩
        ⟨"a1", "ch1", 0, 0, 900, none⟩ 1000000).tokenExp = 1900 ∧
    ¬ (heartbeatRuntimeSession ⟨15, none⟩ ⟨"c1", none⟩
        ⟨"a1", "ch1", 0, 0, 900, none⟩ 1000000).tokenExp
      = 1000000 / 1000 + (15 * 60) * 60 := by
  exact ⟨rfl, by decide⟩

/-- Claim C1 (amended) — Sliding TTL: after the `i`-th heartbeat of any
sequence at instants `t1, t2, …`, the compose metadata carries
`lastSeenAt = ti` and the configured `idleTtlSec = sessionIdleMinutes·60`,
the reissued token's `exp` equals `ti` (in seconds) `+ idleTtlSec` — not
`+ idleTtlSec·60` as the claim stated — and the returned `expiresAt` is the
same horizon (`ti + idleTtlSec·1000` ms, i.e. `exp` at second resolution). -/
theorem heartbeat_sliding_ttl (config : RuntimeServerConfig)
    (compose : DokployCompose) (metadata : RuntimeMetadata) (ts : List Nat)
    (i : Nat) (hi : i < ts.length) :
    ((heartbeatSeq config compose metadata ts).get
        ⟨i, by rw [heartbeatSeq_length]; exact hi⟩).tokenExp
      = ts.get ⟨i, hi⟩ / 1000 + config.sessionIdleMinutes * 60 ∧
    ((heartbeatSeq config compose metadata ts).get
        ⟨i, by rw [heartbeatSeq_length]; exact hi⟩).nextMetadata.lastSeenAtMs
      = ts.get ⟨i, hi⟩ ∧
    ((heartbeatSeq config compose metadata ts).get
        ⟨i, by rw [heartbeatSeq_length]; exact hi⟩).nextMetadata.idleTtlSec
      = config.sessionIdleMinutes * 60 ∧
    ((heartbeatSeq config compose metadata ts).get
        ⟨i, by rw [heartbeatSeq_length]; exact hi⟩).expiresAtMs
      = ts.get ⟨i, hi⟩ + config.sessionIdleMinutes * 60 * 1000 ∧
    ((heartbeatSeq config compose metadata ts).get
        ⟨i, by rw [heartbeatSeq_length]; exact hi⟩).expiresAtMs / 1000
      = ((heartbeatSeq config compose metadata ts).get
        ⟨i, by rw [heartbeatSeq_length]; exact hi⟩).tokenExp := by
  induction ts generalizing metadata i with
  | nil => exact absurd hi (by simp)
  | cons t ts ih =>
    cases i with
    | zero =>
      refine ⟨rfl, rfl, rfl, ?_, ?_⟩
      · simp [heartbeatSeq, heartbeatRuntimeSession, getExpiresAt]
      · simp [heartbeatSeq, heartbeatRuntimeSession, getExpiresAt,
          buildRuntimeTokenExp, Nat.add_mul_div_right]
    | succ j =>
      have hj : j < ts.length := by simpa using Nat.lt_of_succ_lt_succ hi
      exact ih _ j hj

/-- Witness for `heartbeat_sliding_ttl`: the second of two heartbeats at
`t = 1 000 000 ms` and `t = 2 000 000 ms` with the default 15-minute idle TTL
yields `exp = 2000 + 900`. -/
theorem heartbeat_sliding_ttl_witness :
    ((heartbeatSeq ⟨15, none⟩ ⟨"c1", none⟩ ⟨"a1", "ch1", 0, 0, 900, none⟩
        [1000000, 2000000]).get ⟨1, by decide⟩).tokenExp
      = ([1000000, 2000000].get ⟨1, by decide⟩) / 1000 + 15 * 60 :=
  (heartbeat_sliding_ttl ⟨15, none⟩ ⟨"c1", none⟩ ⟨"a1", "ch1", 0, 0, 900, none⟩
    [1000000, 2000000] 1 (by decide)).1

end Orchestrator

namespace SessionLock

/-!
Shallow embedding of `withSessionLock` of
`app/lib/.server/runtime/session-orchestrator.ts` and its use by
`createRuntimeSession`.

JavaScript's event loop runs each synchronous block atomically, so
`withSessionLock` decomposes into two atomic steps per call on the
`inFlightSessionLocks` map (one key, here a single slot):

* *enter* — the synchronous prefix: `get`; if an entry exists the caller
  awaits it (it will receive that task's result and runs no task of its own);
  otherwise the caller's task is started and stored.
* *settle* — the `finally` block once the stored task settles: the entry is
  deleted only if it still is this caller's task (`current === taskPromise`).

Tasks are identified by the id of the call that started them.  One *started*
outcome corresponds to one execution of the locked task — the
`createRuntimeSession` body, which invokes `compose.create` at most once —
while a *joined* outcome runs no task and so issues no platform call.
-/

/-- The `inFlightSessionLocks` entry for one `(actorId, chatId)` key. -/
structure SessionLockState where
  entry : Option Nat
deriving DecidableEq, Repr

/-- How a call returns: it started (and awaits) its own task, or joined the
in-flight task of an earlier call. -/
inductive CallOutcome where
  | started (id : Nat)
  | joined (id : Nat)
deriving DecidableEq, Repr

/-- The synchronous prefix of `withSessionLock` for call `id`. -/
def withSessionLockEnter (s : SessionLockState) (id : Nat) :
    SessionLockState × CallOutcome :=
  match s.entry with
  | some existing => (s, .joined existing)
  | none => ({ entry := some id }, .started id)

/-- The `finally` block of `withSessionLock` once task `id` settles:
delete the entry only when it still belongs to task `id`. -/
def withSessionLockSettle (s : SessionLockState) (id : Nat) : SessionLockState :=
  if s.entry = some id then { entry := none } else s

/-- The value a call ends up returning, given each task's eventual result:
a joiner returns the result of the task it joined. -/
def resultOf {α : Type} (outcome : CallOutcome) (taskResult : Nat → α) : α :=
  match outcome with
  | .started id => taskResult id
  | .joined id => taskResult id

/-- How many of the given call outcomes started a task of their own (and
hence ran the locked body with its single `compose.create`). -/
def countStarted (outcomes : List CallOutcome) : Nat :=
  (outcomes.filter fun o => match o with | .started _ => true | .joined _ => false).length

/-- Claim C3 — Single-flight on create: when a call `a` enters on a free key
and a second call `b` enters before `a` settles, `a` starts the (single)
task, `b` joins it, both return that task's result (identical tokens) and
exactly one task body — hence at most one `compose.create` — runs; the map
entry is removed by a settle only when it still belongs to the settling task
(a newer task that replaced the key is left in place). -/
theorem withSessionLock_single_flight {α : Type} :
    (∀ (s0 : SessionLockState) (a b : Nat) (taskResult : Nat → α),
      s0.entry = none →
      (withSessionLockEnter s0 a).2 = .started a ∧
      (withSessionLockEnter (withSessionLockEnter s0 a).1 b).2 = .joined a ∧
      resultOf (withSessionLockEnter (withSessionLockEnter s0 a).1 b).2 taskResult
        = resultOf (withSessionLockEnter s0 a).2 taskResult ∧
      countStarted [(withSessionLockEnter s0 a).2,
        (withSessionLockEnter (withSessionLockEnter s0 a).1 b).2] = 1) ∧
    (∀ (s : SessionLockState) (i : Nat),
      s.entry = some i → withSessionLockSettle s i = { entry := none }) ∧
    (∀ (s : SessionLockState) (i j : Nat),
      s.entry = some j → j ≠ i → withSessionLockSettle s i = s) ∧
    (∀ (s : SessionLockState) (i : Nat),
      (withSessionLockSettle s i).entry = none →
        s.entry = none ∨ s.entry = some i) := by
  refine ⟨?_, ?_, ?_, ?_⟩
  · intro s0 a b taskResult h0
    obtain ⟨e⟩ := s0
    cases h0
    exact ⟨rfl, rfl, rfl, rfl⟩
  · intro s i h
    simp [withSessionLockSettle, h]
  · intro s i j hj hne
    have hc : ¬ s.entry = some i := by
      rw [hj]
      intro hcc
      exact hne (by injection hcc)
    simp [withSessionLockSettle, hc]
  · intro s i h
    rw [withSessionLockSettle] at h
    by_cases hc : s.entry = some i
    · exact Or.inr hc
    · rw [if_neg hc] at h
      exact Or.inl h

/-- Witness for `withSessionLock_single_flight`: two concurrent calls 1 and 2
on a free key both return task 1's result and start exactly one task. -/
theorem withSessionLock_single_flight_witness :
    (withSessionLockEnter (withSessionLockEnter ⟨none⟩ 1).1 2).2
      = .joined 1 ∧
    countStarted [(withSessionLockEnter ⟨none⟩ 1).2,
      (withSessionLockEnter (withSessionLockEnter ⟨none⟩ 1).1 2).2] = 1 :=
  ⟨((withSessionLock_single_flight (α := Nat)).1 ⟨none⟩ 1 2 id rfl).2.1,
    ((withSessionLock_single_flight (α := Nat)).1 ⟨none⟩ 1 2 id rfl).2.2.2⟩

end SessionLock

namespace WriteQueue

/-!
Shallow embedding of the per-file state machine of
`app/lib/stores/remote-write-queue.ts` (`RemoteWriteQueue.enqueue`,
`#schedule`, `#dispatch` and the chained write task) for one file path.

`enqueue` is the synchronous method body: bump `latestGeneration`, replace
`latestJob`, register a resolver for the new generation, and (re)arm the
debounce timer.  `dispatchWrite` is the timer callback plus the task it
appends to the (here empty) per-file chain, run to completion with a
*successful* platform write; `dispatchWriteFail` is the same with a *failed*
platform write (the `.catch` branch).  Promise settlements and platform
calls are recorded as an ordered event list.
-/

/-- One queued write (`RemoteWriteJob`, content fields collapsed to the
written content). -/
structure RemoteWriteJob where
  generation : Nat
  content : String
deriving DecidableEq, Repr

/-- Status carried by a `RemoteWriteResult`. -/
inductive WriteStatus where
  | written
  | canceled
deriving DecidableEq, Repr

/-- Observable effects: a pending promise resolving `{generation, status}`,
a pending promise rejecting (platform failure), or the underlying platform
write of a job. -/
inductive WriteEvent where
  | resolved (generation : Nat) (status : WriteStatus)
  | rejected (generation : Nat)
  | platformWrite (job : RemoteWriteJob)
deriving DecidableEq, Repr

/-- The per-file `RemoteWriteState` (timer and chain represented by a flag;
`pending` keeps the registered resolver generations in insertion order). -/
structure RemoteWriteState where
  latestGeneration : Nat
  timerSet : Bool
  latestJob : Option RemoteWriteJob
  pending : List Nat
deriving DecidableEq, Repr

/-- The fresh state made by `#getOrCreateState`. -/
def initialState : RemoteWriteState :=
  { latestGeneration := 0, timerSet := false, latestJob := none, pending := [] }

/-- `enqueue`: next generation, replace `latestJob`, register the resolver,
arm (or re-arm) the debounce timer. -/
def enqueue (s : RemoteWriteState) (content : String) : RemoteWriteState :=
  let generation := s.latestGeneration + 1
  { latestGeneration := generation
    timerSet := true
    latestJob := some { generation := generation, content := content }
    pending := s.pending ++ [generation] }

/-- `#dispatch` on timer fire, with the appended chain task run to completion
and the platform write succeeding: snapshot and clear `latestJob`, resolve
every pending generation older than the snapshot with `canceled`, perform
the platform write, then resolve the snapshot generation with `written`. -/
def dispatchWrite (s : RemoteWriteState) : RemoteWriteState × List WriteEvent :=
  match s.latestJob with
  | none => ({ s with timerSet := false }, [])
  | some job =>
    let canceledGens := s.pending.filter fun g => g < job.generation
    let kept := s.pending.filter fun g => ¬ g < job.generation
    (({ s with
        timerSet := false
        latestJob := none
        pending := kept.filter fun g => g ≠ job.generation }),
      (canceledGens.map fun g => .resolved g .canceled)
        ++ [.platformWrite job]
        ++ (if job.generation ∈ kept then [.resolved job.generation .written] else []))

/-- As `dispatchWrite`, but the platform write rejects: the `.catch` branch
rejects the snapshot generation; older generations were already resolved
`canceled` before the chain task ran. -/
def dispatchWriteFail (s : RemoteWriteState) : RemoteWriteState × List WriteEvent :=
  match s.latestJob with
  | none => ({ s with timerSet := false }, [])
  | some job =>
    let canceledGens := s.pending.filter fun g => g < job.generation
    let kept := s.pending.filter fun g => ¬ g < job.generation
    (({ s with
        timerSet := false
        latestJob := none
        pending := kept.filter fun g => g ≠ job.generation }),
      (canceledGens.map fun g => .resolved g .canceled)
        ++ (if job.generation ∈ kept then [.rejected job.generation] else []))

/-- The spec's write-collapse scenario: two writes "v1" then "v2" to one path
inside one debounce window, then the timer fires. -/
def writeCollapseScenario : RemoteWriteState × List WriteEvent :=
  dispatchWrite (enqueue (enqueue initialState "v1") "v2")

/-- Claim C5 — Write collapse: enqueuing "v1" then "v2" within one debounce
window causes exactly one platform write, of "v2" at generation 2; the first
promise resolves `{generation 1, canceled}` and the second
`{generation 2, written}`, in that order; on a failing platform write the
canceled generation still resolves (only the newest generation rejects); and
`enqueue` increments the per-file generation monotonically. -/
theorem writeCollapse_spec :
    writeCollapseScenario.2 =
      [.resolved 1 .canceled, .platformWrite ⟨2, "v2"⟩, .resolved 2 .written] ∧
    (writeCollapseScenario.2.filter fun e =>
        match e with | .platformWrite _ => true | _ => false)
      = [.platformWrite ⟨2, "v2"⟩] ∧
    (dispatchWriteFail (enqueue (enqueue initialState "v1") "v2")).2
      = [.resolved 1 .canceled, .rejected 2] ∧
    (∀ (s : RemoteWriteState) (content : String),
      (enqueue s content).latestGeneration = s.latestGeneration + 1) := by
  exact ⟨by decide, by decide, by decide, fun _ _ => rfl⟩

end WriteQueue

namespace Previews

/-!
Shallow embedding of the pure projector `deriveRemotePreviewStatus` of
`app/lib/stores/previews.remote.ts`.

Timestamps are `Int` milliseconds (JavaScript numbers; elapsed times may be
negative).  JavaScript truthiness is modelled where the source relies on it:
a string is truthy iff non-empty, a stored `queuedSince` of `0` is falsy in
the `deploymentStatus === 'queued' && memory.queuedSince` guard.  The
function body is split into its sequential stages (memory reset, queued
bookkeeping, timeout handling, state selection, transition stamping), which
`deriveRemotePreviewStatus` composes in source order.
-/

inductive PreviewOperationalState where
  | provisioning
  | deploying
  | ready
  | error
  | reconnecting
deriving DecidableEq, Repr

inductive RuntimeConnectionState where
  | idle
  | creating
  | ready
  | error
deriving DecidableEq, Repr

inductive RuntimeDeployStatus where
  | queued
  | running
  | done
  | error
deriving DecidableEq, Repr

inductive RuntimeSessionStatus where
  | creating
  | deploying
  | ready
  | error
  | deleted
deriving DecidableEq, Repr

/-- The session fields the projector reads. -/
structure RuntimeSession where
  composeId : String
  previewUrl : String
  status : RuntimeSessionStatus
deriving DecidableEq, Repr

/-- `RuntimeSessionState` of `runtimeSession.ts`, restricted to the fields the
projector reads. -/
structure RuntimeSessionState where
  state : RuntimeConnectionState
  chatId : Option String
  runtimeToken : Option String
  session : Option RuntimeSession
  deploymentStatus : Option RuntimeDeployStatus
  sessionStatus : Option RuntimeSessionStatus
deriving DecidableEq, Repr

structure RemotePreviewStatusMemory where
  sessionKey : String
  queuedSince : Option Int
  reconnectSince : Option Int
  retryCount : Nat
  lastHealthyAt : Option Int
  lastTransitionAt : Int
  lastState : PreviewOperationalState
deriving DecidableEq, Repr

structure PreviewStatusSnapshot where
  state : PreviewOperationalState
  message : String
  retryCount : Nat
  maxRetries : Nat
  queuedSince : Option Int
  lastTransitionAt : Int
deriving DecidableEq, Repr

structure RemotePreviewDeriveResult where
  snapshot : PreviewStatusSnapshot
  memory : RemotePreviewStatusMemory
  shouldAutoRedeploy : Bool
deriving DecidableEq, Repr

def QUEUED_TIMEOUT_MS : Int := 180000
def MAX_AUTO_RETRIES : Nat := 1
def RECONNECT_GRACE_MS : Int := 30000

def DEFAULT_STATUS_MESSAGE : PreviewOperationalState → String
  | .provisioning => "Provisionando ambiente remoto"
  | .deploying => "Deploy em andamento"
  | .ready => "Preview pronto"
  | .error => "Preview indisponivel"
  | .reconnecting => "Reconectando ao runtime"

/-- `resolveSessionStatus`: `state.sessionStatus || state.session?.status`
(status enum strings are non-empty, so `||` is option-or). -/
def resolveSessionStatus (state : RuntimeSessionState) : Option RuntimeSessionStatus :=
  state.sessionStatus <|> state.session.map (·.status)

/-- `` `${state.chatId || ''}:${state.session?.composeId || ''}` ``. -/
def sessionKeyOf (state : RuntimeSessionState) : String :=
  state.chatId.getD "" ++ ":" ++ (state.session.map (·.composeId)).getD ""

/-- `DEFAULT_MEMORY()` / the in-place reset when the session key changed. -/
def freshMemory (sessionKey : String) (now : Int) : RemotePreviewStatusMemory :=
  { sessionKey := sessionKey
    queuedSince := none
    reconnectSince := none
    retryCount := 0
    lastHealthyAt := none
    lastTransitionAt := now
    lastState := .provisioning }

/-- Stage 1: copy the previous memory (or `DEFAULT_MEMORY()`) and reset it
when `(chatId, composeId)` changed. -/
def resetMemoryIfNewKey (sessionKey : String) (previousMemory : Option RemotePreviewStatusMemory)
    (now : Int) : RemotePreviewStatusMemory :=
  let memory := previousMemory.getD (freshMemory "" now)
  if memory.sessionKey ≠ sessionKey then freshMemory sessionKey now else memory

/-- Stage 2: running/done clears the retry bookkeeping; queued stamps
`queuedSince = queuedSince ?? now`. -/
def applyDeploymentStatus (deploymentStatus : Option RuntimeDeployStatus) (now : Int)
    (memory : RemotePreviewStatusMemory) : RemotePreviewStatusMemory :=
  if deploymentStatus = some .running ∨ deploymentStatus = some .done then
    { memory with retryCount := 0, queuedSince := none }
  else if deploymentStatus = some .queued then
    { memory with queuedSince := some (memory.queuedSince.getD now) }
  else memory

/-- The forced-error message of the queued-timeout path. -/
def QUEUED_TIMEOUT_ERROR_MESSAGE : String :=
  "Preview indisponivel: deploy ficou em fila acima do tempo limite."

/-- Stage 3: the queued-timeout block, guarded by
`deploymentStatus === 'queued' && memory.queuedSince` (a zero timestamp is
falsy).  Returns the updated memory, `shouldAutoRedeploy` and the forced
error message, if any. -/
def applyQueuedTimeout (deploymentStatus : Option RuntimeDeployStatus)
    (now queuedTimeoutMs : Int) (maxAutoRetry : Nat)
    (memory : RemotePreviewStatusMemory) :
    RemotePreviewStatusMemory × Bool × Option String :=
  match deploymentStatus, memory.queuedSince with
  | some .queued, some queuedSince =>
    if queuedSince ≠ 0 ∧ now - queuedSince ≥ queuedTimeoutMs then
      if memory.retryCount < maxAutoRetry then
        ({ memory with retryCount := memory.retryCount + 1, queuedSince := some now },
          true, none)
      else
        (memory, false, some QUEUED_TIMEOUT_ERROR_MESSAGE)
    else (memory, false, none)
  | _, _ => (memory, false, none)

/-- `Boolean(state.runtimeToken)`. -/
def hasTokenOf (state : RuntimeSessionState) : Bool :=
  match state.runtimeToken with
  | some token => token != ""
  | none => false

/-- `Boolean(state.session?.previewUrl)`. -/
def hasPreviewUrl (state : RuntimeSessionState) : Bool :=
  match state.session with
  | some session => session.previewUrl != ""
  | none => false

/-- Stage 4: the state-selection precedence chain.  Returns the next state,
its message, and the memory after the branch's side effects. -/
def selectPreviewState (state : RuntimeSessionState)
    (sessionStatus : Option RuntimeSessionStatus)
    (deploymentStatus : Option RuntimeDeployStatus)
    (forcedErrorMessage : Option String) (now reconnectGraceMs : Int)
    (memory : RemotePreviewStatusMemory) :
    PreviewOperationalState × String × RemotePreviewStatusMemory :=
  match forcedErrorMessage with
  | some message => (.error, message, memory)
  | none =>
    if state.state = .error ∨ sessionStatus = some .error ∨
        deploymentStatus = some .error then
      let reconnectSince := memory.reconnectSince.getD now
      if hasTokenOf state = true ∧ memory.lastHealthyAt.isSome = true ∧
          now - reconnectSince < reconnectGraceMs then
        (.reconnecting, DEFAULT_STATUS_MESSAGE .reconnecting,
          { memory with reconnectSince := some reconnectSince })
      else
        (.error, DEFAULT_STATUS_MESSAGE .error, memory)
    else if state.state = .creating ∨ sessionStatus = some .creating ∨
        (state.session = none ∧ hasTokenOf state = false) then
      (.provisioning, DEFAULT_STATUS_MESSAGE .provisioning,
        { memory with reconnectSince := none })
    else if deploymentStatus = some .queued ∨ deploymentStatus = some .running ∨
        sessionStatus = some .deploying then
      (.deploying, DEFAULT_STATUS_MESSAGE .deploying,
        { memory with reconnectSince := none })
    else if sessionStatus = some .ready ∧
        (deploymentStatus = some .done ∨
          (deploymentStatus = none ∧ memory.lastHealthyAt.isSome = true)) then
      (.ready, DEFAULT_STATUS_MESSAGE .ready,
        { memory with lastHealthyAt := some now, reconnectSince := none, queuedSince := none })
    else if hasPreviewUrl state = true then
      (.deploying, DEFAULT_STATUS_MESSAGE .deploying,
        { memory with reconnectSince := none })
    else
      (.provisioning, DEFAULT_STATUS_MESSAGE .provisioning, memory)

/-- `buildSnapshot` (`message || DEFAULT_STATUS_MESSAGE[state]`). -/
def buildSnapshot (state : PreviewOperationalState) (message : String)
    (retryCount maxRetries : Nat) (queuedSince : Option Int)
    (lastTransitionAt : Int) : PreviewStatusSnapshot :=
  { state := state
    message := if message = "" then DEFAULT_STATUS_MESSAGE state else message
    retryCount := retryCount
    maxRetries := maxRetries
    queuedSince := queuedSince
    lastTransitionAt := lastTransitionAt }

/-- `deriveRemotePreviewStatus` with the option fields explicit (the defaults
are `QUEUED_TIMEOUT_MS`, `MAX_AUTO_RETRIES`, `RECONNECT_GRACE_MS`). -/
def deriveRemotePreviewStatus (state : RuntimeSessionState)
    (previousMemory : Option RemotePreviewStatusMemory)
    (now queuedTimeoutMs : Int) (maxAutoRetry : Nat) (reconnectGraceMs : Int) :
    RemotePreviewDeriveResult :=
  let sessionStatus := resolveSessionStatus state
  let deploymentStatus := state.deploymentStatus
  let sessionKey := sessionKeyOf state
  let memory1 := resetMemoryIfNewKey sessionKey previousMemory now
  let memory2 := applyDeploymentStatus deploymentStatus now memory1
  let step3 := applyQueuedTimeout deploymentStatus now queuedTimeoutMs maxAutoRetry memory2
  let memory3 := step3.1
  let shouldAutoRedeploy := step3.2.1
  let forcedErrorMessage := step3.2.2
  let sel := selectPreviewState state sessionStatus deploymentStatus forcedErrorMessage
    now reconnectGraceMs memory3
  let nextState := sel.1
  let message := sel.2.1
  let memory4 := sel.2.2
  let lastTransitionAt :=
    if memory4.lastState = nextState then memory4.lastTransitionAt else now
  let memory5 :=
    { memory4 with lastState := nextState, lastTransitionAt := lastTransitionAt }
  { snapshot := buildSnapshot nextState message memory5.retryCount maxAutoRetry
      memory5.queuedSince lastTransitionAt
    memory := memory5
    shouldAutoRedeploy := shouldAutoRedeploy }

theorem selectPreviewState_queued_preserves (state : RuntimeSessionState)
    (sessionStatus : Option RuntimeSessionStatus)
    (forcedErrorMessage : Option String) (now reconnectGraceMs : Int)
    (memory : RemotePreviewStatusMemory) :
    ((selectPreviewState state sessionStatus (some .queued) forcedErrorMessage
        now reconnectGraceMs memory).2.2.retryCount = memory.retryCount) ∧
    ((selectPreviewState state sessionStatus (some .queued) forcedErrorMessage
        now reconnectGraceMs memory).2.2.queuedSince = memory.queuedSince) := by
  cases forcedErrorMessage with
  | some msg => exact ⟨rfl, rfl⟩
  | none =>
    simp only [selectPreviewState]
    split_ifs <;> first | exact ⟨rfl, rfl⟩ | simp_all

/-- Claim C6 — Queued-timeout auto-retry: with `deploymentStatus = queued`,
an unchanged session key, a (non-zero) `queuedSince = q` and
`now - q ≥ 180 000 ms`: if `retryCount < 1` the projector emits
`shouldAutoRedeploy = true`, increments `retryCount` to 1 and resets
`queuedSince` to `now`; if instead `retryCount ≥ 1` it forces
`state = error` with the time-limit message and keeps
`shouldAutoRedeploy = false`. -/
theorem deriveRemotePreviewStatus_queued_timeout :
    (∀ (state : RuntimeSessionState) (mem : RemotePreviewStatusMemory) (now q : Int),
      state.deploymentStatus = some .queued →
      mem.sessionKey = sessionKeyOf state →
      mem.queuedSince = some q → q ≠ 0 → now - q ≥ QUEUED_TIMEOUT_MS →
      mem.retryCount = 0 →
      (deriveRemotePreviewStatus state (some mem) now QUEUED_TIMEOUT_MS
          MAX_AUTO_RETRIES RECONNECT_GRACE_MS).shouldAutoRedeploy = true ∧
      (deriveRemotePreviewStatus state (some mem) now QUEUED_TIMEOUT_MS
          MAX_AUTO_RETRIES RECONNECT_GRACE_MS).memory.retryCount = 1 ∧
      (deriveRemotePreviewStatus state (some mem) now QUEUED_TIMEOUT_MS
          MAX_AUTO_RETRIES RECONNECT_GRACE_MS).memory.queuedSince = some now) ∧
    (∀ (state : RuntimeSessionState) (mem : RemotePreviewStatusMemory) (now q : Int),
      state.deploymentStatus = some .queued →
      mem.sessionKey = sessionKeyOf state →
      mem.queuedSince = some q → q ≠ 0 → now - q ≥ QUEUED_TIMEOUT_MS →
      mem.retryCount ≥ 1 →
      (deriveRemotePreviewStatus state (some mem) now QUEUED_TIMEOUT_MS
          MAX_AUTO_RETRIES RECONNECT_GRACE_MS).snapshot.state = .error ∧
      (deriveRemotePreviewStatus state (some mem) now QUEUED_TIMEOUT_MS
          MAX_AUTO_RETRIES RECONNECT_GRACE_MS).snapshot.message
        = QUEUED_TIMEOUT_ERROR_MESSAGE ∧
      (deriveRemotePreviewStatus state (some mem) now QUEUED_TIMEOUT_MS
          MAX_AUTO_RETRIES RECONNECT_GRACE_MS).shouldAutoRedeploy = false) := by
  constructor
  · intro state mem now q hdep hkey hqs hq0 helapsed hretry
    have h1 : resetMemoryIfNewKey (sessionKeyOf state) (some mem) now = mem := by
      simp [resetMemoryIfNewKey, hkey]
    have h2 : applyDeploymentStatus (some .queued) now mem
        = { mem with queuedSince := some q } := by
      simp [applyDeploymentStatus, hqs]
    have h3 : applyQueuedTimeout (some .queued) now QUEUED_TIMEOUT_MS
        MAX_AUTO_RETRIES { mem with queuedSince := some q }
        = ({ mem with retryCount := mem.retryCount + 1, queuedSince := some now },
          true, none) := by
      simp only [applyQueuedTimeout]
      rw [if_pos ⟨hq0, helapsed⟩, if_pos (by simp [hretry, MAX_AUTO_RETRIES])]
    obtain ⟨hr1, hr2⟩ := selectPreviewState_queued_preserves state
      (resolveSessionStatus state) none now RECONNECT_GRACE_MS
      { mem with retryCount := mem.retryCount + 1, queuedSince := some now }
    simp only [deriveRemotePreviewStatus, hdep, h1, h2, h3]
    refine ⟨by trivial, ?_, ?_⟩
    · rw [hr1]
      simp [hretry]
    · rw [hr2]
  · intro state mem now q hdep hkey hqs hq0 helapsed hretry
    have h1 : resetMemoryIfNewKey (sessionKeyOf state) (some mem) now = mem := by
      simp [resetMemoryIfNewKey, hkey]
    have h2 : applyDeploymentStatus (some .queued) now mem
        = { mem with queuedSince := some q } := by
      simp [applyDeploymentStatus, hqs]
    have h3 : applyQueuedTimeout (some .queued) now QUEUED_TIMEOUT_MS
        MAX_AUTO_RETRIES { mem with queuedSince := some q }
        = ({ mem with queuedSince := some q }, false,
          some QUEUED_TIMEOUT_ERROR_MESSAGE) := by
      simp only [applyQueuedTimeout]
      rw [if_pos ⟨hq0, helapsed⟩, if_neg (by simp [MAX_AUTO_RETRIES]; omega)]
    have hsel : selectPreviewState state (resolveSessionStatus state) (some .queued)
        (some QUEUED_TIMEOUT_ERROR_MESSAGE) now RECONNECT_GRACE_MS
        { mem with queuedSince := some q }
        = (.error, QUEUED_TIMEOUT_ERROR_MESSAGE, { mem with queuedSince := some q }) := rfl
    simp only [deriveRemotePreviewStatus, hdep, h1, h2, h3, hsel]
    refine ⟨by trivial, ?_, by trivial⟩
    simp [buildSnapshot, QUEUED_TIMEOUT_ERROR_MESSAGE]

/-- Witness for `deriveRemotePreviewStatus_queued_timeout`: a session queued
since `t = 1000 ms` observed at `t = 200 000 ms` with `retryCount = 0`
triggers exactly one auto-redeploy. -/
theorem deriveRemotePreviewStatus_queued_timeout_witness :
    (deriveRemotePreviewStatus
        ⟨.ready, some "chat", some "tok", some ⟨"comp", "http://x", .ready⟩,
          some .queued, some .deploying⟩
        (some ⟨"chat:comp", some 1000, none, 0, none, 0, .deploying⟩)
        200000 QUEUED_TIMEOUT_MS MAX_AUTO_RETRIES RECONNECT_GRACE_MS).shouldAutoRedeploy
      = true :=
  (deriveRemotePreviewStatus_queued_timeout.1
    ⟨.ready, some "chat", some "tok", some ⟨"comp", "http://x", .ready⟩,
      some .queued, some .deploying⟩
    ⟨"chat:comp", some 1000, none, 0, none, 0, .deploying⟩
    200000 1000 rfl rfl rfl (by decide) (by decide) rfl).1

end Previews

namespace RuntimeToken

/-!
Shallow embedding of `app/lib/.server/runtime/runtime-token.ts`.

Modelled from the spec: `SignJWT`/`jwtVerify` come from the external `jose`
library (not in these sources); per §4.3 of the spec the verifier "rejects on
bad signature, bad algorithm, or expired" and otherwise hands the payload
back.  HMAC-SHA256 is replaced by a concrete deterministic MAC over the
serialized token content (its cryptographic strength is irrelevant to the
claims); the registered `exp` check is jose's `payload.exp <= now → reject`.
The key point of the embedding is what the repository's `verifyRuntimeToken`
adds on top of `jwtVerify`: nothing — the payload is returned as-is, cast to
`RuntimeTokenClaims`, with no shape validation.
-/

/-- A JSON payload value (the claims used here are numbers and strings). -/
inductive JVal where
  | jnum (n : Int)
  | jstr (s : String)
deriving DecidableEq, Repr

/-- Serialization of the signed content, input to the MAC. -/
def encodeContent (alg : String) (payload : List (String × JVal)) : String :=
  payload.foldl
    (fun acc field =>
      acc ++ field.1 ++ "=" ++ (match field.2 with
        | .jnum n => toString n
        | .jstr s => s) ++ ";")
    (alg ++ ".")

/-- The deterministic stand-in for HMAC-SHA256 over secret and content. -/
def macModel (secret : String) (alg : String) (payload : List (String × JVal)) : Nat :=
  Rollout.stableHash32 (Rollout.strCodes (secret ++ "|" ++ encodeContent alg payload))

/-- A compact JWS: protected-header algorithm, payload object, signature. -/
structure JwsToken where
  alg : String
  payload : List (String × JVal)
  sig : Nat
deriving DecidableEq, Repr

/-- `jwtVerify(token, secret, {algorithms: ['HS256']})`: reject a non-HS256
algorithm, a bad signature, or an expired `exp`; return the payload
otherwise.  `exp` absent means no expiry check. -/
def jwtVerify (token : JwsToken) (secret : String) (nowSec : Int) :
    Option (List (String × JVal)) :=
  if token.alg ≠ "HS256" then none
  else if token.sig ≠ macModel secret token.alg token.payload then none
  else
    match token.payload.lookup "exp" with
    | some (.jnum exp) => if exp ≤ nowSec then none else some token.payload
    | some (.jstr _) => none
    | none => some token.payload

/-- `verifyRuntimeToken` of `runtime-token.ts`: delegate to `jwtVerify` and
return `result.payload` unchanged (the `as unknown as RuntimeTokenClaims`
cast performs no validation). -/
def verifyRuntimeToken (token : JwsToken) (secret : String) (nowSec : Int) :
    Option (List (String × JVal)) :=
  jwtVerify token secret nowSec

/-- A payload carrying only a far-future `exp` — none of the
`RuntimeTokenClaims` fields. -/
def c9Payload : List (String × JVal) := [("exp", .jnum 9999999999)]

/-- That payload signed with the correct secret under HS256. -/
def c9Token : JwsToken :=
  { alg := "HS256", payload := c9Payload, sig := macModel "test-secret" "HS256" c9Payload }

/-- Claim C9 — `verifyRuntimeToken` validates only signature, algorithm and
time claims: a token signed with the correct secret and not yet expired whose
payload lacks `v`, `actorId`, `chatId`, `projectId`, `environmentId`,
`composeId` and `domain` verifies successfully and the incomplete payload is
returned as the claims. -/
theorem verifyRuntimeToken_no_shape_validation :
    verifyRuntimeToken c9Token "test-secret" 1700000000 = some c9Payload ∧
    c9Payload.lookup "v" = none ∧
    c9Payload.lookup "actorId" = none ∧
    c9Payload.lookup "chatId" = none ∧
    c9Payload.lookup "projectId" = none ∧
    c9Payload.lookup "environmentId" = none ∧
    c9Payload.lookup "composeId" = none ∧
    c9Payload.lookup "domain" = none := by
  refine ⟨?_, rfl, rfl, rfl, rfl, rfl, rfl, rfl⟩
  rw [verifyRuntimeToken, jwtVerify]
  simp [c9Token, c9Payload]

end RuntimeToken

namespace Cleanup

/-!
Shallow embedding of `app/lib/.server/runtime/metadata.ts`'s companion
cleanup module (`isExpired`, `cleanupExpiredActorSessions`).

`Date.parse` is a host built-in: it is passed in as `dateParse`, returning
`none` where the JavaScript value is `NaN` (the `Number.isFinite` guard).
`parseRuntimeMetadata` routes through the host's `JSON.parse`, so the
composed `description ↦ metadata` reader is likewise a parameter
`parseMeta`; the claims hold for every choice of both.  The actor-scoped
lock set and the best-effort error swallowing around `composeDelete` are
control details that do not change which composes get a delete call;
`cleanupExpiredActorSessions` here returns exactly the composes for which
`client.composeDelete` is issued. -/

/-- The metadata fields the sweeper reads (`RuntimeMetadata` of `types.ts`,
timestamps kept as the raw ISO strings the code stores). -/
structure RuntimeMetadata where
  actorId : String
  chatId : String
  lastSeenAt : String
  idleTtlSec : Int
deriving DecidableEq, Repr

structure DokployCompose where
  composeId : String
  description : Option String
deriving DecidableEq, Repr

structure DokployEnvironment where
  compose : List DokployCompose
deriving DecidableEq, Repr

structure DokployProject where
  environments : List DokployEnvironment
deriving DecidableEq, Repr

/-- `isExpired`: `false` whenever `Date.parse(lastSeenAt)` is not finite,
else `ts + idleTtlSec·1000 < Date.now()`. -/
def isExpired (dateParse : String → Option Int) (lastSeenAt : String)
    (idleTtlSec : Int) (nowMs : Int) : Bool :=
  match dateParse lastSeenAt with
  | none => false
  | some ts => ts + idleTtlSec * 1000 < nowMs

/-- The compose-level filter of `cleanupExpiredActorSessions`: delete iff the
metadata parses, belongs to the actor, and is expired. -/
def shouldDelete (parseMeta : Option String → Option RuntimeMetadata)
    (dateParse : String → Option Int) (actorId : String) (nowMs : Int)
    (compose : DokployCompose) : Bool :=
  match parseMeta compose.description with
  | none => false
  | some metadata =>
    if metadata.actorId ≠ actorId then false
    else isExpired dateParse metadata.lastSeenAt metadata.idleTtlSec nowMs

/-- `cleanupExpiredActorSessions`: the composes, across all projects and
environments, for which `client.composeDelete(composeId, true)` is issued. -/
def cleanupExpiredActorSessions (parseMeta : Option String → Option RuntimeMetadata)
    (dateParse : String → Option Int) (projects : List DokployProject)
    (actorId : String) (nowMs : Int) : List DokployCompose :=
  projects.flatMap fun project =>
    project.environments.flatMap fun environment =>
      environment.compose.filter (shouldDelete parseMeta dateParse actorId nowMs)

/-- Claim C10 — The idle sweeper never deletes a compose whose `lastSeenAt`
does not parse: whenever the compose's metadata parses and matches the actor
but `Date.parse(metadata.lastSeenAt)` is `NaN`, `isExpired` is `false` and
`cleanupExpiredActorSessions` issues no `composeDelete` for that compose, at
every instant `nowMs`. -/
theorem cleanup_skips_unparseable_lastSeenAt
    (parseMeta : Option String → Option RuntimeMetadata)
    (dateParse : String → Option Int) (projects : List DokployProject)
    (actorId : String) (nowMs : Int) (compose : DokployCompose)
    (metadata : RuntimeMetadata)
    (hparse : parseMeta compose.description = some metadata)
    (hactor : metadata.actorId = actorId)
    (hnan : dateParse metadata.lastSeenAt = none) :
    isExpired dateParse metadata.lastSeenAt metadata.idleTtlSec nowMs = false ∧
    compose ∉ cleanupExpiredActorSessions parseMeta dateParse projects actorId nowMs := by
  have hexp : isExpired dateParse metadata.lastSeenAt metadata.idleTtlSec nowMs = false := by
    rw [isExpired, hnan]
  refine ⟨hexp, ?_⟩
  intro hmem
  rw [cleanupExpiredActorSessions] at hmem
  obtain ⟨project, _, hm1⟩ := List.mem_flatMap.1 hmem
  obtain ⟨environment, _, hm2⟩ := List.mem_flatMap.1 hm1
  have hdel : shouldDelete parseMeta dateParse actorId nowMs compose = true :=
    (List.mem_filter.1 hm2).2
  rw [shouldDelete, hparse] at hdel
  simp [hactor, hexp] at hdel

/-- Witness for `cleanup_skips_unparseable_lastSeenAt`: a one-project,
one-environment platform holding one actor-owned compose whose `lastSeenAt`
is the unparseable string `"not-a-date"` gets no delete, arbitrarily far in
the future. -/
theorem cleanup_skips_unparseable_lastSeenAt_witness :
    ⟨"compose-1", some "BOLT_RUNTIME:{...}"⟩ ∉
      cleanupExpiredActorSessions
        (fun _ => some ⟨"actor-1", "chat-1", "not-a-date", 900⟩)
        (fun _ => none)
        [⟨[⟨[⟨"compose-1", some "BOLT_RUNTIME:{...}"⟩]⟩]⟩]
        "actor-1" 99999999999999 :=
  (cleanup_skips_unparseable_lastSeenAt
    (fun _ => some ⟨"actor-1", "chat-1", "not-a-date", 900⟩)
    (fun _ => none)
    [⟨[⟨[⟨"compose-1", some "BOLT_RUNTIME:{...}"⟩]⟩]⟩]
    "actor-1" 99999999999999
    ⟨"compose-1", some "BOLT_RUNTIME:{...}"⟩
    ⟨"actor-1", "chat-1", "not-a-date", 900⟩
    rfl rfl rfl).2

end Cleanup
